import Mathlib

/-
  Verification of claude-orchestra's core against its specification.

  Shallow embedding of:
    - src/claude_orchestra/patterns.py           (activity classifier)
    - src/claude_orchestra/wrapper.py            (StatusWriter, run_wrapper termination)
    - src/claude_orchestra/session/manager.py    (SessionManager)
    - src/claude_orchestra/session/models.py     (SessionState, SessionStatus, Session)
    - src/claude_orchestra/tmux/controller.py    (TmuxController, at the interface level)

  Strings are modelled as Lean `String` / `List Char`; the filesystem
  directories (`~/.claude-orchestra/status`, `~/.claude-orchestra/sessions`)
  are modelled as association lists keyed by session id, where an entry
  stands for the file `<id>.json`.  Timestamps (`datetime.now()`) are
  modelled as an explicit `now : Nat` argument.
-/

set_option autoImplicit false

namespace ClaudeOrchestra

/-! ### Character-level helpers (Python `str.strip`, regex `\s`, ASCII case folding) -/

/-- Whitespace as recognised by Python's `str.strip()` and the regex class
in patterns compiled over `str`: the ASCII whitespace characters plus the
Unicode whitespace code points. -/
def isPySpace (c : Char) : Bool :=
  c = ' ' || c = '\t' || c = '\n' || c = '\r' || c = '\x0b' || c = '\x0c'
  || c = '\x1c' || c = '\x1d' || c = '\x1e' || c = '\x1f' || c = '\u0085'
  || c = '\u00a0' || c = '\u1680'
  || ('\u2000' ≤ c && c ≤ '\u200a')
  || c = '\u2028' || c = '\u2029' || c = '\u202f' || c = '\u205f' || c = '\u3000'

/-- Python `str.strip()`: drop leading and trailing whitespace. -/
def pyStrip (l : List Char) : List Char :=
  ((l.dropWhile isPySpace).reverse.dropWhile isPySpace).reverse

/-- ASCII lower-casing, for the `re.IGNORECASE` patterns (whose letters are
all ASCII). -/
def toLowerAscii (c : Char) : Char :=
  if 'A' ≤ c && c ≤ 'Z' then Char.ofNat (c.toNat + 32) else c

/-- Does `pat` occur at the start of `l`?  (Anchored `^literal` regex.) -/
def startsList : List Char → List Char → Bool
  | [], _ => true
  | _ :: _, [] => false
  | p :: ps, c :: cs => p = c && startsList ps cs

/-- Does `pat` occur somewhere in `l`?  (Unanchored literal regex, via
`re.search`, e.g. `\[Y/n\]`.) -/
def hasSubList (pat : List Char) : List Char → Bool
  | [] => startsList pat []
  | l@(_ :: rest) => startsList pat l || hasSubList pat rest

/-! ### The individual regexes of patterns.py

Each definition below is the `re.search` semantics of one compiled pattern,
specialised to the fact that the patterns are compiled without `re.MULTILINE`
(so `^` anchors only at the start of the string and `$` matches at the end or
just before a final newline, and `.` does not match a newline). -/

/-- `^>\s*$` : the string is `>` followed only by whitespace. -/
def matchPromptMarker : List Char → Bool
  | '>' :: rest => rest.all isPySpace
  | _ => false

/-- `^\?\s` : a leading question mark followed by a whitespace character. -/
def matchQuestion : List Char → Bool
  | '?' :: c :: _ => isPySpace c
  | _ => false

/-- Scanner for `^\[.*\]`: after the opening bracket, look for `]` on the
same line (`.` does not cross a newline). -/
def scanClose : List Char → Bool
  | [] => false
  | c :: cs => if c = ']' then true else if c = '\n' then false else scanClose cs

/-- `^\[.*\]` : a line opening with a bracketed token such as `[Read]`. -/
def matchBracketTool : List Char → Bool
  | '[' :: rest => scanClose rest
  | _ => false

/-- `^Keyword\s` : a literal keyword followed by a whitespace character. -/
def keywordThenSpace (pat : List Char) (l : List Char) : Bool :=
  startsList pat l &&
    (match l.drop pat.length with
     | c :: _ => isPySpace c
     | [] => false)

/-- Case-insensitive anchored literal (`re.IGNORECASE` on an ASCII literal). -/
def ciStarts (pat : List Char) (l : List Char) : Bool :=
  startsList (pat.map toLowerAscii) (l.map toLowerAscii)

/-- `WAITING_PATTERNS` of patterns.py: any of the seven waiting regexes
matches the line. -/
def waitingMatch (l : List Char) : Bool :=
  matchPromptMarker l || matchQuestion l
  || startsList "Do you want to".data l
  || startsList "Would you like".data l
  || startsList "Press Enter".data l
  || hasSubList "[Y/n]".data l
  || hasSubList "[y/N]".data l

/-- `ERROR_PATTERNS` of patterns.py: any of the three (case-insensitive)
error regexes matches the line. -/
def errorMatch (l : List Char) : Bool :=
  ciStarts "Error:".data l || ciStarts "Failed:".data l
  || ciStarts "Exception:".data l

/-- `WORKING_PATTERNS` of patterns.py: any of the six working regexes
matches the line. -/
def workingMatch (l : List Char) : Bool :=
  keywordThenSpace "Reading".data l
  || keywordThenSpace "Writing".data l
  || keywordThenSpace "Editing".data l
  || keywordThenSpace "Running".data l
  || keywordThenSpace "Searching".data l
  || matchBracketTool l

/-- Body of `detect_state` after the initial `line.strip()`: the ordered
cascade over the three pattern groups, with the default branch kept separate
from the working-pattern branch exactly as in the source. -/
def detectCore (l : List Char) (current_state : String) : String :=
  if l = [] then current_state
  else if waitingMatch l then "waiting"
  else if errorMatch l then "error"
  else if workingMatch l then "working"
  else "working"

/-- `detect_state(line, current_state="unknown")` of patterns.py. -/
def detect_state (line : String) (current_state : String := "unknown") : String :=
  detectCore (pyStrip line.data) current_state

/-! ### Data model (session/models.py) -/

/-- `SessionState` of models.py: the closed five-value enumeration. -/
inductive SessionState where
  | working
  | waiting
  | idle
  | error
  | unknown
deriving DecidableEq, Repr

/-- The string value of each `SessionState` member (it is a `str` enum). -/
def SessionState.toStr : SessionState → String
  | .working => "working"
  | .waiting => "waiting"
  | .idle => "idle"
  | .error => "error"
  | .unknown => "unknown"

/-- Parsing a string into a `SessionState` member, as pydantic validation of
the `state` field does; any other string is a validation error. -/
def sessionStateOfString (s : String) : Option SessionState :=
  if s = "working" then some .working
  else if s = "waiting" then some .waiting
  else if s = "idle" then some .idle
  else if s = "error" then some .error
  else if s = "unknown" then some .unknown
  else none

/-- `SessionStatus` of models.py, as returned by
`SessionManager.get_session_status`. -/
structure SessionStatus where
  state : SessionState
  last_output : String
  updated_at : Nat
deriving DecidableEq, Repr

/-- `Session` of models.py: the durable per-session metadata record. -/
structure Session where
  id : String
  project_path : String
  project_name : String
  task_description : String
  git_branch : String
  created_at : Nat
  total_time : Nat
  tmux_session : String
deriving DecidableEq, Repr

/-! ### Filesystem model: association lists keyed by session id -/

/-- The content of one `<id>.json` file in the status directory: either a
record that parses (state string, last line, timestamp) or unparseable
bytes (truncated/corrupt JSON). -/
inductive StatusFileContent where
  | valid (state : String) (last_output : String) (updated_at : Nat)
  | corrupt
deriving DecidableEq, Repr

/-- The status directory `~/.claude-orchestra/status`: one entry per file
`<session_id>.json`. -/
abbrev StatusDir := List (String × StatusFileContent)

/-- Find the file named by key `k`. -/
def lookupAssoc {α : Type} : List (String × α) → String → Option α
  | [], _ => none
  | p :: rest, k => if p.1 = k then some p.2 else lookupAssoc rest k

/-- Remove every file named by key `k` (`unlink`). -/
def eraseAssoc {α : Type} : List (String × α) → String → List (String × α)
  | [], _ => []
  | p :: rest, k => if p.1 = k then eraseAssoc rest k else p :: eraseAssoc rest k

/-- Atomically replace (or create) the file named by key `k`
(write-to-temp-then-`os.rename`). -/
def setAssoc {α : Type} (l : List (String × α)) (k : String) (v : α) :
    List (String × α) :=
  (k, v) :: eraseAssoc l k

/-! ### StatusWriter (wrapper.py) -/

/-- The in-memory fields of `StatusWriter`: `session_id`, the retained
`last_output`, and the current `state` (the `status_dir`/`status_file`
paths are the keying of `StatusDir`; `last_update` is passed as `now`). -/
structure StatusWriter where
  session_id : String
  last_output : String
  state : String
deriving DecidableEq, Repr

/-- `StatusWriter.__init__`: empty retained line, state `"unknown"`. -/
def StatusWriter.init (session_id : String) : StatusWriter :=
  { session_id := session_id, last_output := "", state := "unknown" }

/-- The expression `last_output.strip()[:200]` of `StatusWriter.update`. -/
def truncate200 (s : String) : String :=
  String.mk ((pyStrip s.data).take 200)

/-- `StatusWriter.update(state, last_output="")`: set the state; when the
argument is a non-empty (truthy) string, retain its stripped 200-character
truncation; then atomically publish `{state, last_output, updated_at}` to
the session's status file.  The publish step's failure path (caught, logged,
never raised) is environmental and the model takes the successful write. -/
def StatusWriter.update (w : StatusWriter) (dir : StatusDir) (state : String)
    (last_output : String) (now : Nat) : StatusWriter × StatusDir :=
  let lo := if last_output ≠ "" then truncate200 last_output else w.last_output
  let w' : StatusWriter := { w with state := state, last_output := lo }
  (w', setAssoc dir w.session_id (.valid state lo now))

/-! ### SessionManager.get_session_status (session/manager.py) -/

/-- `SessionManager.get_session_status(session_id)`: read
`STATUS_DIR/<id>.json`; an absent file, JSON that fails to decode, or a
record that fails model validation (e.g. a state string outside the
enumeration) all yield a default record whose state is `unknown`
(`SessionStatus(state=SessionState.UNKNOWN)`, whose other fields default to
`""` and the current time `now`). -/
def get_session_status (dir : StatusDir) (session_id : String) (now : Nat) :
    SessionStatus :=
  match lookupAssoc dir session_id with
  | none => { state := .unknown, last_output := "", updated_at := now }
  | some .corrupt => { state := .unknown, last_output := "", updated_at := now }
  | some (.valid st lo t) =>
      match sessionStateOfString st with
      | some s => { state := s, last_output := lo, updated_at := t }
      | none => { state := .unknown, last_output := "", updated_at := now }

/-! ### TmuxController (tmux/controller.py), at the interface level

The tmux server is modelled as the list of names of its live sessions.
Operations that libtmux can fail on take an explicit success flag. -/

/-- Is the name in the list?  (`server.sessions.get(session_name=name)`). -/
def hasName : List String → String → Bool
  | [], _ => false
  | n :: rest, k => if n = k then true else hasName rest k

/-- Remove the name from the list (`session.kill()`). -/
def removeName : List String → String → List String
  | [], _ => []
  | n :: rest, k => if n = k then removeName rest k else n :: removeName rest k

/-- The names starting with a given literal
(`TmuxController.list_sessions(prefix=...)`). -/
def namesWithPre (p : String) : List String → List String
  | [] => []
  | n :: rest =>
      if startsList p.data n.data then n :: namesWithPre p rest
      else namesWithPre p rest

/-- `TmuxController.kill_session(name)`: kill the named session if it
exists; returns whether one was killed, never raises. -/
def TmuxController.kill_session (tmux : List String) (name : String) :
    Bool × List String :=
  if hasName tmux name then (true, removeName tmux name) else (false, tmux)

/-- `TmuxController.create_session(name, command, working_dir)`: first kill
any existing session of the same name, then create the new one; `ok` is
whether `server.new_session` succeeds (on failure a `TmuxError` is raised
after the kill already happened). -/
def TmuxController.create_session (tmux : List String) (name : String)
    (ok : Bool) : Except String Unit × List String :=
  let afterKill := (TmuxController.kill_session tmux name).2
  if ok then (.ok (), name :: afterKill)
  else (.error ("Failed to create session " ++ name), afterKill)

/-! ### SessionManager (session/manager.py) -/

/-- `TMUX_SESSION_PREFIX` of config.py. -/
def tmuxNamePre : String := "claude-orchestra-"

/-- `Path(p).name`: the final path component. -/
def baseNameAux : List Char → List Char → List Char
  | acc, [] => acc.reverse
  | acc, c :: rest =>
      if c = '/' then baseNameAux [] rest else baseNameAux (c :: acc) rest

/-- `Path(p).name` on a resolved (no trailing slash) path string. -/
def baseName (p : String) : String :=
  String.mk (baseNameAux [] p.data)

/-- Python `str.replace(pat, "")`, replacing every occurrence of a
non-empty pattern, via fuel-indexed left-to-right scanning. -/
def replaceAllAux (pat : List Char) : Nat → List Char → List Char
  | _, [] => []
  | 0, l => l
  | fuel + 1, l@(c :: rest) =>
      if startsList pat l then replaceAllAux pat fuel (l.drop pat.length)
      else c :: replaceAllAux pat fuel rest

/-- `tmux_session.replace(TMUX_SESSION_PREFIX, "")`: derive a session id
from a hosted-terminal name. -/
def deriveId (name : String) : String :=
  String.mk (replaceAllAux tmuxNamePre.data name.data.length name.data)

/-- The mutable state of a `SessionManager` process together with the parts
of the world it owns: the in-memory `_sessions` dict, the metadata files
under `SESSIONS_DIR`, the status files under `STATUS_DIR`, and the names of
the live tmux sessions. -/
structure ManagerState where
  sessions : List (String × Session)
  sessionFiles : List (String × Session)
  statusFiles : StatusDir
  tmuxSessions : List String
deriving DecidableEq, Repr

/-- `SessionManager.get_session(session_id)`. -/
def get_session (m : ManagerState) (session_id : String) : Option Session :=
  lookupAssoc m.sessions session_id

/-- Outcome of `SessionManager.create_session`: the returned value or the
raised error, the manager/world state afterwards, and whether the terminal
host was asked to create a hosted terminal. -/
structure CreateOutcome where
  result : Except String Session
  state : ManagerState
  tmuxAttempted : Bool

/-- Is the outcome a raised error? -/
def CreateOutcome.isErr (o : CreateOutcome) : Bool :=
  match o.result with
  | .error _ => true
  | .ok _ => false

/-- `SessionManager.create_session(project_path, task_description,
git_branch="")`.  `pathExists` is whether the resolved project path exists
on disk; `session_id` is the generated `uuid4` short id; `detected_branch`
is the best-effort result of `_detect_git_branch` (empty on failure);
`tmuxOk` is whether `tmux.create_session` succeeds.  The source order is:
validate path, build the `Session`, create the tmux session (raises on
failure, before anything is persisted), then insert into `_sessions` and
`_save_session`. -/
def create_session (m : ManagerState) (pathExists : Bool)
    (project_path task_description git_branch session_id detected_branch : String)
    (tmuxOk : Bool) (now : Nat) : CreateOutcome :=
  if pathExists = false then
    { result := .error ("Project path does not exist: " ++ project_path),
      state := m, tmuxAttempted := false }
  else
    let tmux_name := tmuxNamePre ++ session_id
    let session : Session :=
      { id := session_id, project_path := project_path,
        project_name := baseName project_path,
        task_description := task_description,
        git_branch := if git_branch ≠ "" then git_branch else detected_branch,
        created_at := now, total_time := 0, tmux_session := tmux_name }
    match TmuxController.create_session m.tmuxSessions tmux_name tmuxOk with
    | (.error e, tmux') =>
        { result := .error e, state := { m with tmuxSessions := tmux' },
          tmuxAttempted := true }
    | (.ok _, tmux') =>
        let m' : ManagerState :=
          { m with
            tmuxSessions := tmux',
            sessions := setAssoc m.sessions session_id session,
            sessionFiles := setAssoc m.sessionFiles session_id session }
        { result := .ok session, state := m', tmuxAttempted := true }

/-- `SessionManager.delete_session(session_id)`: `False` for an unknown id;
otherwise kill the tmux session (result ignored), remove the in-memory
record, and `_delete_session_file` removes the metadata file and the status
file when they exist. -/
def delete_session (m : ManagerState) (session_id : String) :
    Bool × ManagerState :=
  match lookupAssoc m.sessions session_id with
  | none => (false, m)
  | some s =>
      let k := TmuxController.kill_session m.tmuxSessions s.tmux_session
      let m' : ManagerState :=
        { m with
          tmuxSessions := k.2,
          sessions := eraseAssoc m.sessions session_id,
          sessionFiles := eraseAssoc m.sessionFiles session_id,
          statusFiles := eraseAssoc m.statusFiles session_id }
      (true, m')

/-- The loop body of `SessionManager.reconnect_orphaned_sessions` over the
listed tmux session names.  `paneCwd` is `tmux.get_pane_cwd` (None when
unavailable), `branchOf` is `_detect_git_branch` on a project path, `home`
is `Path.home()`, `now` the creation timestamp of synthesized sessions. -/
def reconnectLoop (paneCwd : String → Option String)
    (branchOf : String → String) (home : String) (now : Nat) :
    List String → ManagerState → ManagerState × Nat
  | [], m => (m, 0)
  | name :: rest, m =>
      let sid := deriveId name
      if (lookupAssoc m.sessions sid).isSome then
        reconnectLoop paneCwd branchOf home now rest m
      else
        let pp := match paneCwd name with
          | some c => c
          | none => home
        let pn := match paneCwd name with
          | some c => baseName c
          | none => "unknown"
        let s : Session :=
          { id := sid, project_path := pp, project_name := pn,
            task_description := "(reconnected session)",
            git_branch := branchOf pp, created_at := now, total_time := 0,
            tmux_session := name }
        let m' : ManagerState :=
          { m with
            sessions := setAssoc m.sessions sid s,
            sessionFiles := setAssoc m.sessionFiles sid s }
        let r := reconnectLoop paneCwd branchOf home now rest m'
        (r.1, r.2 + 1)

/-- `SessionManager.reconnect_orphaned_sessions()`: iterate over the live
tmux sessions whose name starts with `TMUX_SESSION_PREFIX`, adopting each
one whose derived id has no in-memory `Session`; returns the new state and
the count of adopted sessions. -/
def reconnect_orphaned_sessions (m : ManagerState)
    (paneCwd : String → Option String) (branchOf : String → String)
    (home : String) (now : Nat) : ManagerState × Nat :=
  reconnectLoop paneCwd branchOf home now
    (namesWithPre tmuxNamePre m.tmuxSessions) m

/-! ### run_wrapper termination (wrapper.py) -/

/-- The status reaped by `os.waitpid(pid, 0)` once the child has ended:
either a normal exit with an 8-bit code (`WIFEXITED`/`WEXITSTATUS`) or a
termination by signal. -/
inductive WaitStatus where
  | exited (code : Nat)
  | signaled (sig : Nat)
deriving DecidableEq, Repr

/-- `exit_code = os.WEXITSTATUS(exit_status) if os.WIFEXITED(exit_status)
else 1`. -/
def exitCodeOf : WaitStatus → Nat
  | .exited code => code
  | .signaled _ => 1

/-- The termination phase of `run_wrapper` (wrapper.py lines 171-177),
entered whenever the multiplexing loop ends because the child process
ended: reap the exit status, classify it into an integer exit code, publish
the final `{"idle", "Session ended"}` status record, and return the exit
code (which `main` passes to `sys.exit`). -/
def run_wrapper_final (w : StatusWriter) (dir : StatusDir) (ws : WaitStatus)
    (now : Nat) : (StatusWriter × StatusDir) × Nat :=
  let exit_code := exitCodeOf ws
  (w.update dir "idle" "Session ended" now, exit_code)

/-! ### Helper lemmas about the association-list filesystem model -/

theorem lookup_erase_same {α : Type} (l : List (String × α)) (k : String) :
    lookupAssoc (eraseAssoc l k) k = none := by
  induction l with
  | nil => rfl
  | cons p rest ih =>
      by_cases h : p.1 = k
      · simpa [eraseAssoc, h] using ih
      · simp [eraseAssoc, h, lookupAssoc, ih]

theorem lookup_erase_ne {α : Type} (l : List (String × α)) (k k' : String)
    (h : k' ≠ k) :
    lookupAssoc (eraseAssoc l k) k' = lookupAssoc l k' := by
  induction l with
  | nil => rfl
  | cons p rest ih =>
      by_cases hp : p.1 = k
      · have hpk : p.1 ≠ k' := by rw [hp]; exact fun hh => h hh.symm
        have hkk : k ≠ k' := fun hh => h hh.symm
        simp [eraseAssoc, hp, lookupAssoc, hpk, hkk, ih]
      · simp [eraseAssoc, hp, lookupAssoc, ih]

theorem lookup_set_same {α : Type} (l : List (String × α)) (k : String) (v : α) :
    lookupAssoc (setAssoc l k v) k = some v := by
  simp [setAssoc, lookupAssoc]

theorem lookup_set_ne {α : Type} (l : List (String × α)) (k k' : String) (v : α)
    (h : k' ≠ k) :
    lookupAssoc (setAssoc l k v) k' = lookupAssoc l k' := by
  have : k ≠ k' := fun hh => h hh.symm
  simp [setAssoc, lookupAssoc, this, lookup_erase_ne l k k' h]

theorem lookup_set_isSome {α : Type} (l : List (String × α)) (k k' : String)
    (v : α) (h : (lookupAssoc l k').isSome = true) :
    (lookupAssoc (setAssoc l k v) k').isSome = true := by
  by_cases hk : k' = k
  · subst hk; simp [lookup_set_same]
  · rw [lookup_set_ne l k k' v hk]; exact h

theorem ofStr_toStr (s : SessionState) :
    sessionStateOfString s.toStr = some s := by
  cases s <;> rfl

theorem truncate200_len (s : String) : (truncate200 s).length ≤ 200 := by
  show ((pyStrip s.data).take 200).length ≤ 200
  calc ((pyStrip s.data).take 200).length
      = min 200 (pyStrip s.data).length := List.length_take 200 (pyStrip s.data)
    _ ≤ 200 := Nat.min_le_left _ _

/-! ### Helper lemmas about the reconcile loop -/

theorem reconnectLoop_tmux (paneCwd : String → Option String)
    (branchOf : String → String) (home : String) (now : Nat)
    (names : List String) :
    ∀ m : ManagerState,
      (reconnectLoop paneCwd branchOf home now names m).1.tmuxSessions
        = m.tmuxSessions := by
  induction names with
  | nil => intro m; rfl
  | cons name rest ih =>
      intro m
      by_cases hc : (lookupAssoc m.sessions (deriveId name)).isSome = true
      · simp [reconnectLoop, hc, ih]
      · simp [reconnectLoop, hc, ih]

theorem reconnectLoop_mono (paneCwd : String → Option String)
    (branchOf : String → String) (home : String) (now : Nat)
    (names : List String) :
    ∀ (m : ManagerState) (k : String),
      (lookupAssoc m.sessions k).isSome = true →
      (lookupAssoc (reconnectLoop paneCwd branchOf home now names m).1.sessions
        k).isSome = true := by
  induction names with
  | nil => intro m k h; exact h
  | cons name rest ih =>
      intro m k h
      by_cases hc : (lookupAssoc m.sessions (deriveId name)).isSome = true
      · simp only [reconnectLoop, hc, if_true]
        exact ih m k h
      · simp only [reconnectLoop, hc, Bool.false_eq_true, if_false]
        exact ih _ k (lookup_set_isSome _ _ _ _ h)

theorem reconnectLoop_covers (paneCwd : String → Option String)
    (branchOf : String → String) (home : String) (now : Nat)
    (names : List String) :
    ∀ (m : ManagerState) (name : String), name ∈ names →
      (lookupAssoc (reconnectLoop paneCwd branchOf home now names m).1.sessions
        (deriveId name)).isSome = true := by
  induction names with
  | nil => intro m name h; cases h
  | cons nm rest ih =>
      intro m name h
      by_cases hc : (lookupAssoc m.sessions (deriveId nm)).isSome = true
      · rcases List.mem_cons.mp h with heq | hmem
        · subst heq
          simp only [reconnectLoop, hc, if_true]
          exact reconnectLoop_mono paneCwd branchOf home now rest m _ hc
        · simp only [reconnectLoop, hc, if_true]
          exact ih m name hmem
      · rcases List.mem_cons.mp h with heq | hmem
        · subst heq
          simp only [reconnectLoop, hc, Bool.false_eq_true, if_false]
          exact reconnectLoop_mono paneCwd branchOf home now rest _ _
            (by simp [lookup_set_same])
        · simp only [reconnectLoop, hc, Bool.false_eq_true, if_false]
          exact ih _ name hmem

theorem reconnectLoop_noop (paneCwd : String → Option String)
    (branchOf : String → String) (home : String) (now : Nat)
    (names : List String) :
    ∀ m : ManagerState,
      (∀ name, name ∈ names →
        (lookupAssoc m.sessions (deriveId name)).isSome = true) →
      reconnectLoop paneCwd branchOf home now names m = (m, 0) := by
  induction names with
  | nil => intro m _; rfl
  | cons nm rest ih =>
      intro m h
      have hc := h nm (List.mem_cons_self nm rest)
      simp only [reconnectLoop, hc, if_true]
      exact ih m (fun n hn => h n (List.mem_cons_of_mem _ hn))

/-! ### The claims -/

/-- C7: Blank-input identity — for every previous state value in the
`SessionState` enumeration, `detect_state` applied to any line that is
empty after whitespace trimming (in particular the empty string) returns
that previous state unchanged. -/
theorem detect_state_blank_identity (s : SessionState) (line : String)
    (h : pyStrip line.data = []) :
    detect_state line s.toStr = s.toStr := by
  unfold detect_state detectCore
  rw [h]
  simp

/-- Witness for C7 at the concrete blank line `"  \t "` and previous state
`idle`. -/
theorem detect_state_blank_identity_witness :
    detect_state "  \t " SessionState.idle.toStr = SessionState.idle.toStr :=
  detect_state_blank_identity SessionState.idle "  \t " (by decide)

/-- C2: Classifier precedence — for every line that is non-empty after
trimming, if it matches a waiting pattern and also a working pattern (or an
error pattern) then `detect_state` returns `waiting`, for every previous
state; and the precedence order waiting > error > working > default is
observed for all inputs: a waiting match always yields `waiting`, an error
match with no waiting match yields `error`, and otherwise the result is
`working` (the working-pattern and default branches). -/
theorem detect_state_precedence (line prev : String)
    (hne : pyStrip line.data ≠ []) :
    (waitingMatch (pyStrip line.data) = true
        ∧ (workingMatch (pyStrip line.data) = true
            ∨ errorMatch (pyStrip line.data) = true) →
      detect_state line prev = "waiting")
    ∧ (waitingMatch (pyStrip line.data) = true →
        detect_state line prev = "waiting")
    ∧ (waitingMatch (pyStrip line.data) = false →
        errorMatch (pyStrip line.data) = true →
        detect_state line prev = "error")
    ∧ (waitingMatch (pyStrip line.data) = false →
        errorMatch (pyStrip line.data) = false →
        detect_state line prev = "working") := by
  unfold detect_state detectCore
  rw [if_neg hne]
  refine ⟨fun h => ?_, fun h => ?_, fun hw he => ?_, fun hw he => ?_⟩
  · simp [h.1]
  · simp [h]
  · simp [hw, he]
  · simp [hw, he]

/-- Witness for C2 at `"[Y/n] proceed"`, a line matching both the waiting
pattern `\[Y/n\]` and the working pattern `^\[.*\]`. -/
theorem detect_state_precedence_witness :
    detect_state "[Y/n] proceed" "idle" = "waiting" :=
  (detect_state_precedence "[Y/n] proceed" "idle" (by decide)).1
    (by exact ⟨by decide, Or.inl (by decide)⟩)

/-- C8: Concrete classification examples — `"> "`, `">"`, `">  "` classify
as `waiting`; `"Reading file.txt"` as `working`; `"Error: boom"` as
`error`; `"random chatter"` as `working`, for every previous state. -/
theorem detect_state_examples (prev : String) :
    detect_state "> " prev = "waiting"
    ∧ detect_state ">" prev = "waiting"
    ∧ detect_state ">  " prev = "waiting"
    ∧ detect_state "Reading file.txt" prev = "working"
    ∧ detect_state "Error: boom" prev = "error"
    ∧ detect_state "random chatter" prev = "working" :=
  ⟨rfl, rfl, rfl, rfl, rfl, rfl⟩

/-- C9: Classifier codomain — for every line that is non-empty after
whitespace stripping and every previous state, `detect_state` returns one
of `waiting`, `error`, `working` (never `idle` or `unknown`), and the
result does not depend on the previous-state argument. -/
theorem detect_state_codomain (line prev prevL prevR : String)
    (hne : pyStrip line.data ≠ []) :
    (detect_state line prev = "waiting" ∨ detect_state line prev = "error"
      ∨ detect_state line prev = "working")
    ∧ detect_state line prevL = detect_state line prevR := by
  unfold detect_state detectCore
  rw [if_neg hne, if_neg hne, if_neg hne]
  constructor
  · split
    · exact Or.inl rfl
    · split
      · exact Or.inr (Or.inl rfl)
      · split
        · exact Or.inr (Or.inr rfl)
        · exact Or.inr (Or.inr rfl)
  · rfl

/-- Witness for C9 at the concrete line `"hello world"`. -/
theorem detect_state_codomain_witness :
    (detect_state "hello world" "idle" = "waiting"
      ∨ detect_state "hello world" "idle" = "error"
      ∨ detect_state "hello world" "idle" = "working")
    ∧ detect_state "hello world" "unknown" = detect_state "hello world" "error" :=
  detect_state_codomain "hello world" "idle" "unknown" "error" (by decide)

/-- C1: Status read/write round-trip — publishing a record with any
enumeration state via `StatusWriter.update` and reading it back with
`SessionManager.get_session_status` yields the same state and a last-output
string of at most 200 characters (given that the writer's retained line is
itself within the bound, as `__init__` and every update maintain); and for
any session id with no published record, `get_session_status` returns a
record whose state is `unknown`, without raising. -/
theorem status_roundtrip (w : StatusWriter) (dir : StatusDir)
    (s : SessionState) (line : String) (now tr tr2 : Nat)
    (sid : String) (d : StatusDir)
    (hw : w.last_output.length ≤ 200)
    (hd : lookupAssoc d sid = none) :
    (get_session_status (w.update dir s.toStr line now).2 w.session_id tr).state = s
    ∧ (get_session_status (w.update dir s.toStr line now).2 w.session_id
        tr).last_output.length ≤ 200
    ∧ (get_session_status d sid tr2).state = SessionState.unknown := by
  have hfile : lookupAssoc (w.update dir s.toStr line now).2 w.session_id
      = some (.valid s.toStr
          (if line ≠ "" then truncate200 line else w.last_output) now) := by
    simp [StatusWriter.update, lookup_set_same]
  refine ⟨?_, ?_, ?_⟩
  · simp [get_session_status, hfile, ofStr_toStr]
  · have hlo : (get_session_status (w.update dir s.toStr line now).2
        w.session_id tr).last_output
        = (if line ≠ "" then truncate200 line else w.last_output) := by
      simp [get_session_status, hfile, ofStr_toStr]
    rw [hlo]
    by_cases hl : line = ""
    · simpa [hl] using hw
    · simpa [hl] using truncate200_len line
  · simp [get_session_status, hd]

/-- Witness for C1: publish `working`/`"hello"` from a fresh writer for
session `s1` into an empty status directory, read it back; and read the
unpublished session `nobody`. -/
theorem status_roundtrip_witness :
    (get_session_status
        ((StatusWriter.init "s1").update [] SessionState.working.toStr "hello" 1).2
        "s1" 2).state = SessionState.working
    ∧ (get_session_status
        ((StatusWriter.init "s1").update [] SessionState.working.toStr "hello" 1).2
        "s1" 2).last_output.length ≤ 200
    ∧ (get_session_status [] "nobody" 3).state = SessionState.unknown :=
  status_roundtrip (StatusWriter.init "s1") [] SessionState.working "hello"
    1 2 3 "nobody" [] (by decide) (by decide)

/-- C10: Last-output frame condition — an update with the empty (falsy)
`last_output` argument keeps the retained last-output value unchanged in
both the writer and the published record, so only the state and the
`updated_at` timestamp change; after an update with a non-empty argument
followed by one with the empty argument, the published last-output is the
stripped 200-character truncation of that most recent non-empty argument. -/
theorem update_empty_frame (w : StatusWriter) (dir : StatusDir)
    (st stA stB v : String) (now nowA nowB : Nat) (hv : v ≠ "") :
    ((w.update dir st "" now).1.last_output = w.last_output
      ∧ lookupAssoc (w.update dir st "" now).2 w.session_id
          = some (.valid st w.last_output now))
    ∧ (((w.update dir stA v nowA).1.update (w.update dir stA v nowA).2
          stB "" nowB).1.last_output = truncate200 v
      ∧ lookupAssoc ((w.update dir stA v nowA).1.update
            (w.update dir stA v nowA).2 stB "" nowB).2 w.session_id
          = some (.valid stB (truncate200 v) nowB)) := by
  refine ⟨⟨?_, ?_⟩, ?_, ?_⟩
  · simp [StatusWriter.update]
  · simp [StatusWriter.update, lookup_set_same]
  · simp [StatusWriter.update, hv]
  · simp [StatusWriter.update, lookup_set_same, hv]

/-- Witness for C10 with a writer that has retained `"prev"`, an empty
update, and a non-empty update `"fresh line"` followed by an empty one. -/
theorem update_empty_frame_witness :
    ((StatusWriter.update ⟨"s2", "prev", "working"⟩ [] "idle" "" 5).1.last_output
        = "prev"
      ∧ lookupAssoc (StatusWriter.update ⟨"s2", "prev", "working"⟩ [] "idle" "" 5).2 "s2"
          = some (.valid "idle" "prev" 5))
    ∧ (((StatusWriter.update ⟨"s2", "prev", "working"⟩ [] "working" "fresh line" 6).1.update
          (StatusWriter.update ⟨"s2", "prev", "working"⟩ [] "working" "fresh line" 6).2
          "idle" "" 7).1.last_output = truncate200 "fresh line"
      ∧ lookupAssoc ((StatusWriter.update ⟨"s2", "prev", "working"⟩ [] "working" "fresh line" 6).1.update
            (StatusWriter.update ⟨"s2", "prev", "working"⟩ [] "working" "fresh line" 6).2
            "idle" "" 7).2 "s2" = some (.valid "idle" (truncate200 "fresh line") 7)) :=
  update_empty_frame ⟨"s2", "prev", "working"⟩ [] "idle" "working" "idle"
    "fresh line" 5 6 7 (by decide)

/-- C5: Supervisor termination — when the multiplexing loop ends because
the child process exited (reaped wait status `exited code`), the
termination phase of `run_wrapper` publishes a final status record with
state `idle` and message `"Session ended"` for its session, and returns the
child's own exit code, which `main` passes to `sys.exit`. -/
theorem run_wrapper_terminal (w : StatusWriter) (dir : StatusDir)
    (code : Nat) (now tr : Nat) :
    (run_wrapper_final w dir (.exited code) now).2 = code
    ∧ lookupAssoc (run_wrapper_final w dir (.exited code) now).1.2 w.session_id
        = some (.valid "idle" "Session ended" now)
    ∧ (get_session_status (run_wrapper_final w dir (.exited code) now).1.2
        w.session_id tr).state = SessionState.idle := by
  have htr : truncate200 "Session ended" = "Session ended" := by decide
  have hfile : lookupAssoc (run_wrapper_final w dir (.exited code) now).1.2
      w.session_id = some (.valid "idle" "Session ended" now) := by
    simp [run_wrapper_final, StatusWriter.update, lookup_set_same, htr]
  refine ⟨rfl, hfile, ?_⟩
  simp [get_session_status, hfile, sessionStateOfString]

/-- C3: Session-creation atomicity — creating against a nonexistent project
path raises, leaves the whole state unchanged, and never asks the terminal
host for a hosted terminal; and when hosted-terminal creation fails
(raises), no `Session` is added to the in-memory registry and no metadata
record is persisted. -/
theorem create_session_atomic (m : ManagerState)
    (pp task gb sid db : String) (pathExists tmuxOk : Bool) (now : Nat) :
    (pathExists = false →
      (create_session m pathExists pp task gb sid db tmuxOk now).isErr = true
      ∧ (create_session m pathExists pp task gb sid db tmuxOk now).state = m
      ∧ (create_session m pathExists pp task gb sid db tmuxOk now).tmuxAttempted
          = false)
    ∧ (tmuxOk = false →
      (create_session m pathExists pp task gb sid db tmuxOk now).isErr = true
      ∧ (create_session m pathExists pp task gb sid db tmuxOk now).state.sessions
          = m.sessions
      ∧ (create_session m pathExists pp task gb sid db tmuxOk now).state.sessionFiles
          = m.sessionFiles) := by
  constructor
  · intro h
    subst h
    simp [create_session, CreateOutcome.isErr]
  · intro h
    subst h
    cases pathExists <;>
      simp [create_session, CreateOutcome.isErr, TmuxController.create_session]

/-- Witness for C3: a nonexistent path on an empty manager state, and a
tmux-creation failure on an existing path. -/
theorem create_session_atomic_witness :
    ((create_session ⟨[], [], [], []⟩ false "/nowhere" "t" "" "ab" "" true 0).isErr
        = true
      ∧ (create_session ⟨[], [], [], []⟩ false "/nowhere" "t" "" "ab" "" true 0).state
          = ⟨[], [], [], []⟩
      ∧ (create_session ⟨[], [], [], []⟩ false "/nowhere" "t" "" "ab" "" true 0).tmuxAttempted
          = false)
    ∧ ((create_session ⟨[], [], [], []⟩ true "/proj" "t" "" "cd" "" false 0).isErr
        = true
      ∧ (create_session ⟨[], [], [], []⟩ true "/proj" "t" "" "cd" "" false 0).state.sessions
          = ([] : List (String × Session))
      ∧ (create_session ⟨[], [], [], []⟩ true "/proj" "t" "" "cd" "" false 0).state.sessionFiles
          = ([] : List (String × Session))) :=
  ⟨(create_session_atomic ⟨[], [], [], []⟩ "/nowhere" "t" "" "ab" "" false true 0).1 rfl,
   (create_session_atomic ⟨[], [], [], []⟩ "/proj" "t" "" "cd" "" true false 0).2 rfl⟩

/-- C4: Deletion is irreversible and total — for a known session id,
`delete_session` returns `true` and afterwards `get_session` is absent,
`get_session_status` has state `unknown`, and neither a metadata file nor a
status file remains for that id; for an unknown id it returns `false` and
changes nothing. -/
theorem delete_session_total (m : ManagerState) (sid : String) (tr : Nat) :
    ((lookupAssoc m.sessions sid).isSome = true →
      (delete_session m sid).1 = true
      ∧ get_session (delete_session m sid).2 sid = none
      ∧ (get_session_status (delete_session m sid).2.statusFiles sid tr).state
          = SessionState.unknown
      ∧ lookupAssoc (delete_session m sid).2.sessionFiles sid = none
      ∧ lookupAssoc (delete_session m sid).2.statusFiles sid = none)
    ∧ (lookupAssoc m.sessions sid = none →
      (delete_session m sid).1 = false ∧ (delete_session m sid).2 = m) := by
  constructor
  · intro h
    obtain ⟨s, hs⟩ := Option.isSome_iff_exists.mp h
    refine ⟨?_, ?_, ?_, ?_, ?_⟩
    · simp [delete_session, hs]
    · simp [delete_session, hs, get_session, lookup_erase_same]
    · simp [delete_session, hs, get_session_status, lookup_erase_same]
    · simp [delete_session, hs, lookup_erase_same]
    · simp [delete_session, hs, lookup_erase_same]
  · intro h
    exact ⟨by simp [delete_session, h], by simp [delete_session, h]⟩

/-- Witness for C4: delete the known session `ab` from a one-session state,
and delete the unknown id `zz`. -/
theorem delete_session_total_witness :
    ((delete_session
        ⟨[("ab", ⟨"ab", "/p", "p", "t", "", 0, 0, "claude-orchestra-ab"⟩)],
         [("ab", ⟨"ab", "/p", "p", "t", "", 0, 0, "claude-orchestra-ab"⟩)],
         [("ab", .valid "working" "x" 0)],
         ["claude-orchestra-ab"]⟩ "ab").1 = true
      ∧ get_session (delete_session
        ⟨[("ab", ⟨"ab", "/p", "p", "t", "", 0, 0, "claude-orchestra-ab"⟩)],
         [("ab", ⟨"ab", "/p", "p", "t", "", 0, 0, "claude-orchestra-ab"⟩)],
         [("ab", .valid "working" "x" 0)],
         ["claude-orchestra-ab"]⟩ "ab").2 "ab" = none
      ∧ (get_session_status (delete_session
        ⟨[("ab", ⟨"ab", "/p", "p", "t", "", 0, 0, "claude-orchestra-ab"⟩)],
         [("ab", ⟨"ab", "/p", "p", "t", "", 0, 0, "claude-orchestra-ab"⟩)],
         [("ab", .valid "working" "x" 0)],
         ["claude-orchestra-ab"]⟩ "ab").2.statusFiles "ab" 9).state
          = SessionState.unknown
      ∧ lookupAssoc (delete_session
        ⟨[("ab", ⟨"ab", "/p", "p", "t", "", 0, 0, "claude-orchestra-ab"⟩)],
         [("ab", ⟨"ab", "/p", "p", "t", "", 0, 0, "claude-orchestra-ab"⟩)],
         [("ab", .valid "working" "x" 0)],
         ["claude-orchestra-ab"]⟩ "ab").2.sessionFiles "ab" = none
      ∧ lookupAssoc (delete_session
        ⟨[("ab", ⟨"ab", "/p", "p", "t", "", 0, 0, "claude-orchestra-ab"⟩)],
         [("ab", ⟨"ab", "/p", "p", "t", "", 0, 0, "claude-orchestra-ab"⟩)],
         [("ab", .valid "working" "x" 0)],
         ["claude-orchestra-ab"]⟩ "ab").2.statusFiles "ab" = none)
    ∧ ((delete_session
        ⟨[("ab", ⟨"ab", "/p", "p", "t", "", 0, 0, "claude-orchestra-ab"⟩)],
         [("ab", ⟨"ab", "/p", "p", "t", "", 0, 0, "claude-orchestra-ab"⟩)],
         [("ab", .valid "working" "x" 0)],
         ["claude-orchestra-ab"]⟩ "zz").1 = false
      ∧ (delete_session
        ⟨[("ab", ⟨"ab", "/p", "p", "t", "", 0, 0, "claude-orchestra-ab"⟩)],
         [("ab", ⟨"ab", "/p", "p", "t", "", 0, 0, "claude-orchestra-ab"⟩)],
         [("ab", .valid "working" "x" 0)],
         ["claude-orchestra-ab"]⟩ "zz").2
          = ⟨[("ab", ⟨"ab", "/p", "p", "t", "", 0, 0, "claude-orchestra-ab"⟩)],
             [("ab", ⟨"ab", "/p", "p", "t", "", 0, 0, "claude-orchestra-ab"⟩)],
             [("ab", .valid "working" "x" 0)],
             ["claude-orchestra-ab"]⟩) :=
  ⟨(delete_session_total
      ⟨[("ab", ⟨"ab", "/p", "p", "t", "", 0, 0, "claude-orchestra-ab"⟩)],
       [("ab", ⟨"ab", "/p", "p", "t", "", 0, 0, "claude-orchestra-ab"⟩)],
       [("ab", .valid "working" "x" 0)],
       ["claude-orchestra-ab"]⟩ "ab" 9).1 (by decide),
   (delete_session_total
      ⟨[("ab", ⟨"ab", "/p", "p", "t", "", 0, 0, "claude-orchestra-ab"⟩)],
       [("ab", ⟨"ab", "/p", "p", "t", "", 0, 0, "claude-orchestra-ab"⟩)],
       [("ab", .valid "working" "x" 0)],
       ["claude-orchestra-ab"]⟩ "zz" 9).2 (by decide)⟩

/-- C6: Reconcile idempotence — with the set of live hosted terminals
unchanged between the two calls (the registry never mutates it), a second
`reconnect_orphaned_sessions` adopts zero new sessions and leaves the
registry state exactly as the first call left it. -/
theorem reconcile_idempotent (m : ManagerState)
    (paneCwd : String → Option String) (branchOf : String → String)
    (home : String) (now nowB : Nat) :
    (reconnect_orphaned_sessions
        (reconnect_orphaned_sessions m paneCwd branchOf home now).1
        paneCwd branchOf home nowB).2 = 0
    ∧ (reconnect_orphaned_sessions
        (reconnect_orphaned_sessions m paneCwd branchOf home now).1
        paneCwd branchOf home nowB).1
      = (reconnect_orphaned_sessions m paneCwd branchOf home now).1 := by
  have htm : (reconnect_orphaned_sessions m paneCwd branchOf home now).1.tmuxSessions
      = m.tmuxSessions :=
    reconnectLoop_tmux paneCwd branchOf home now
      (namesWithPre tmuxNamePre m.tmuxSessions) m
  have hcov : ∀ name, name ∈ namesWithPre tmuxNamePre m.tmuxSessions →
      (lookupAssoc (reconnect_orphaned_sessions m paneCwd branchOf home now).1.sessions
        (deriveId name)).isSome = true :=
    fun name hn =>
      reconnectLoop_covers paneCwd branchOf home now
        (namesWithPre tmuxNamePre m.tmuxSessions) m name hn
  have hnoop : reconnectLoop paneCwd branchOf home nowB
      (namesWithPre tmuxNamePre m.tmuxSessions)
      (reconnect_orphaned_sessions m paneCwd branchOf home now).1
      = ((reconnect_orphaned_sessions m paneCwd branchOf home now).1, 0) :=
    reconnectLoop_noop paneCwd branchOf home nowB
      (namesWithPre tmuxNamePre m.tmuxSessions)
      (reconnect_orphaned_sessions m paneCwd branchOf home now).1 hcov
  constructor
  · show (reconnectLoop paneCwd branchOf home nowB
        (namesWithPre tmuxNamePre
          (reconnect_orphaned_sessions m paneCwd branchOf home now).1.tmuxSessions)
        (reconnect_orphaned_sessions m paneCwd branchOf home now).1).2 = 0
    rw [htm, hnoop]
  · show (reconnectLoop paneCwd branchOf home nowB
        (namesWithPre tmuxNamePre
          (reconnect_orphaned_sessions m paneCwd branchOf home now).1.tmuxSessions)
        (reconnect_orphaned_sessions m paneCwd branchOf home now).1).1 = _
    rw [htm, hnoop]

end ClaudeOrchestra
